import Mathlib

/-!
# Gallery server (`server/index.js`)

A shallow embedding of the Express application in `server/index.js`: the
credential loader, the start-up construction of the Drive client, and the four
route handlers (`/api/health`, `/api/images`, `/api/image/:id`, `/api/upload`).

Everything outside the file is a parameter: `JSON.parse`, `require`, the
`google.drive` factory and the Drive client itself (whose calls either return
data or throw an error carrying a message).  A handler is a function from its
inputs to the ordered list of observable actions it performs (provider calls,
file-system calls, log lines, and the calls made on `res`); the HTTP response
is read off that list.

Request inputs are the JavaScript values the framework hands to the handler:
`req.query.folderId` and `req.body.folderId` are absent, a string, an array or
an object; `req.file` is what `upload.single('image')` left, and the upload
callback runs only when that middleware passed the request on.  A call that can
throw inside a `try` (`res.setHeader`, the string conversion of a parameter, a
provider call) is modelled with its failure branch.
-/

namespace Gallery

/-! ## JavaScript values -/

/-- JSON values, as produced by `JSON.parse` and consumed by `res.json`.
Numbers are kept as integers: the server only ever tests a number for zero. -/
inductive Json where
  | null
  | bool (b : Bool)
  | num (n : Int)
  | str (s : String)
  | arr (items : List Json)
  | obj (fields : List (String × Json))

/-- JavaScript truthiness of a JSON value (`if(key)`, `!key`). -/
def Json.truthy : Json → Bool
  | .null => false
  | .bool b => b
  | .num n => n != 0
  | .str s => s != ""
  | .arr _ => true
  | .obj _ => true

/-- Property read `v.name`: the member of an object, `undefined` otherwise. -/
def Json.field : Json → String → Option Json
  | .obj fields, name => (fields.find? (fun kv => kv.1 == name)).map (fun kv => kv.2)
  | _, _ => none

/-- Truthiness of a value that is either `undefined` or a string
(`process.env.X`, `f.thumbnailLink`). -/
def truthyStr : Option String → Bool
  | some s => s != ""
  | none => false

/-- The expression `a || d` with a string literal `d` on the right. -/
def jsOrLit (a : Option String) (d : String) : String :=
  match a with
  | some s => if s != "" then s else d
  | none => d

/-! ## Request parameters -/

/-- A request parameter as the query parser (`req.query`) or multer's field
collector (`req.body`) delivers it: a string, an array or an object. -/
inductive Param where
  | str (s : String)
  | arr (items : List Param)
  | obj (fields : List (String × Param))

/-- JavaScript truthiness of a parameter: only the empty string is falsy. -/
def Param.truthy : Param → Bool
  | .str s => s != ""
  | .arr _ => true
  | .obj _ => true

mutual
/-- String conversion of a parameter inside a template literal: a string is
itself, an array is its items joined by commas, an object is `[object Object]`;
an object with an own member `toString` (never callable here) makes the
conversion throw a `TypeError`. -/
def Param.render : Param → Except String String
  | .str s => .ok s
  | .arr items => Param.renderItems items
  | .obj fields =>
    if fields.any (fun kv => kv.1 == "toString") then
      .error "Cannot convert object to primitive value"
    else .ok "[object Object]"
/-- The items of an array converted left to right and joined by commas. -/
def Param.renderItems : List Param → Except String String
  | [] => .ok ""
  | [p] => p.render
  | p :: q :: rest =>
    match p.render with
    | .error e => .error e
    | .ok a =>
      match Param.renderItems (q :: rest) with
      | .error e => .error e
      | .ok b => .ok (a ++ "," ++ b)
end

/-- The expression `supplied || DRIVE_FOLDER_ID` of lines 56 and 107: the
request's value when it is truthy, the configured default otherwise. -/
def resolveFolder (supplied : Option Param) (dflt : Option String) : Option Param :=
  match supplied with
  | some p => if p.truthy then some p else dflt.map Param.str
  | none => dflt.map Param.str

/-! ## Response headers -/

/-- The characters Node accepts in a header value: tab, printable ASCII and
the upper half of Latin-1. -/
def validHeaderChar (c : Char) : Bool :=
  c.toNat == 9 || (32 ≤ c.toNat && c.toNat ≤ 126) || (128 ≤ c.toNat && c.toNat ≤ 255)

/-- Whether `res.setHeader(name, value)` accepts `value`; it throws otherwise. -/
def validHeaderValue (value : String) : Bool :=
  value.toList.all validHeaderChar

/-- The message of the `TypeError` thrown by `res.setHeader` for a value it
does not accept. -/
def invalidHeaderMessage (name : String) : String :=
  "Invalid character in header content [\"" ++ name ++ "\"]"

/-! ## Configuration and credentials -/

/-- The variables of `process.env` the server reads. -/
structure Env where
  PORT : Option String
  DRIVE_FOLDER_ID : Option String
  SERVICE_ACCOUNT_JSON : Option String
  GOOGLE_APPLICATION_CREDENTIALS : Option String
  ENABLE_UPLOAD : Option String

/-- The functions of the runtime the credential loader calls: `JSON.parse`
and `require(path.resolve(p))`; each returns a value or throws. -/
structure Runtime where
  jsonParse : String → Except String Json
  requireFile : String → Except String Json

/-- The function `getServiceAccountCredentials` (lines 14-28). -/
def getServiceAccountCredentials (env : Env) (rt : Runtime) : Except String Json :=
  if truthyStr env.SERVICE_ACCOUNT_JSON then
    rt.jsonParse (env.SERVICE_ACCOUNT_JSON.getD "")
  else if truthyStr env.GOOGLE_APPLICATION_CREDENTIALS then
    rt.requireFile (env.GOOGLE_APPLICATION_CREDENTIALS.getD "")
  else
    .error "No service account credentials found. Set SERVICE_ACCOUNT_JSON or GOOGLE_APPLICATION_CREDENTIALS"

/-- The constant `key` (line 30): the credentials, or `null` when loading threw. -/
def key (env : Env) (rt : Runtime) : Json :=
  match getServiceAccountCredentials env rt with
  | .ok k => k
  | .error _ => .null

/-- The constant `SCOPES` (line 33). -/
def SCOPES : List String :=
  ["https://www.googleapis.com/auth/drive.readonly", "https://www.googleapis.com/auth/drive.file"]

/-- The options passed to `new google.auth.JWT` (lines 36-40). -/
structure JwtOptions where
  email : Option Json
  key : Option Json
  scopes : List String

/-! ## The provider client -/

/-- A provider file record, restricted to the fields the listing requests. -/
structure FileRecord where
  id : String
  name : String
  mimeType : String
  thumbnailLink : Option String
  webViewLink : Option String
  iconLink : Option String

/-- The data of a metadata fetch with `fields:'mimeType,name'`. -/
structure FileMeta where
  mimeType : Option String
  name : Option String

/-- The data of a create call with `fields:'id,name'`. -/
structure CreatedFile where
  id : String
  name : String

/-- An error thrown by a provider call; the handlers read `err.message`. -/
structure ProviderError where
  message : String

/-- The argument of `driveClient.files.list`. -/
structure ListRequest where
  q : String
  fields : String
  pageSize : Nat

/-- The argument of `driveClient.files.create`: `resource` is `name` with
`parents`, `media` is `mimeType` with a read stream of the file at `bodyPath`. -/
structure CreateRequest where
  name : String
  parents : List Param
  mimeType : String
  bodyPath : String
  fields : String

/-- The Drive client: each call returns its `data` or throws.  `filesGet` is
`files.get` with a `fields` mask, `filesGetMedia` is `files.get` with
`alt:'media'` and `responseType:'stream'`, returning the bytes of the stream. -/
structure DriveClient where
  filesList : ListRequest → Except ProviderError (Option (List FileRecord))
  filesGet : String → String → Except ProviderError FileMeta
  filesGetMedia : String → Except ProviderError (List Nat)
  filesCreate : CreateRequest → Except ProviderError CreatedFile

/-- The variable `driveClient` after start-up (lines 34-42): assigned only when
`key` is truthy. -/
def driveClient (env : Env) (rt : Runtime) (googleDrive : JwtOptions → DriveClient) :
    Option DriveClient :=
  let k := key env rt
  if k.truthy then
    some (googleDrive { email := k.field "client_email", key := k.field "private_key", scopes := SCOPES })
  else none

/-! ## Observable actions and responses -/

/-- The actions a handler performs, in program order.  `errorPage` is the HTML
page written by Express's default error handler for an error given to `next`. -/
inductive Event where
  | listCall (req : ListRequest)
  | getCall (fileId fields : String)
  | mediaCall (fileId : String)
  | createCall (req : CreateRequest)
  | createReadStream (path : String)
  | unlink (path : String)
  | consoleError (label : String)
  | status (code : Nat)
  | setHeader (name value : String)
  | json (body : Json)
  | send (body : String)
  | pipe (bytes : List Nat)
  | errorPage (message : String)

/-- Whether an action is a call on the provider client. -/
def Event.isProviderCall : Event → Bool
  | .listCall _ => true
  | .getCall _ _ => true
  | .mediaCall _ => true
  | .createCall _ => true
  | _ => false

/-- The status code of the response: the last `res.status(c)`, 200 when none. -/
def statusOf (trace : List Event) : Nat :=
  trace.foldl (fun s e => match e with | .status c => c | _ => s) 200

/-- The JSON body sent with `res.json`, when there is one. -/
def jsonBodyOf (trace : List Event) : Option Json :=
  trace.findSome? (fun e => match e with | .json b => some b | _ => none)

/-- The text body sent with `res.send`, when there is one. -/
def textBodyOf (trace : List Event) : Option String :=
  trace.findSome? (fun e => match e with | .send b => some b | _ => none)

/-- The bytes piped into the response, when a stream was piped. -/
def streamBodyOf (trace : List Event) : Option (List Nat) :=
  trace.findSome? (fun e => match e with | .pipe b => some b | _ => none)

/-- The value given to `res.setHeader(name, _)`, when it was called. -/
def headerOf (trace : List Event) (name : String) : Option String :=
  trace.findSome? (fun e => match e with
    | .setHeader n v => if n == name then some v else none
    | _ => none)

/-! ## Listing: `GET /api/images` -/

/-- The client-facing image descriptor built at lines 66-72. -/
structure Descriptor where
  id : String
  name : String
  mimeType : String
  url : String
  thumb : String

/-- The mapping `f => (...)` of lines 66-72. -/
def descriptor (f : FileRecord) : Descriptor :=
  { id := f.id
    name := f.name
    mimeType := f.mimeType
    url := "/api/image/" ++ f.id
    thumb := jsOrLit f.thumbnailLink ("/api/image/" ++ f.id) }

/-- A descriptor as serialised by `res.json`: the five keys of the object
literal, in its order. -/
def Descriptor.toJson (d : Descriptor) : Json :=
  .obj [("id", .str d.id), ("name", .str d.name), ("mimeType", .str d.mimeType),
        ("url", .str d.url), ("thumb", .str d.thumb)]

/-- The constant `files` of line 66: `(r.data.files || []).map(...)`. -/
def listingFiles (files : Option (List FileRecord)) : List Descriptor :=
  (files.getD []).map descriptor

/-- The template literal `q` of line 60, for the string conversion of `folderId`. -/
def listQuery (folderId : String) : String :=
  "'" ++ folderId ++ "' in parents and mimeType contains 'image/' and trashed = false"

/-- The argument of `files.list` at lines 61-65. -/
def listRequest (folderId : String) : ListRequest :=
  { q := listQuery folderId
    fields := "files(id,name,mimeType,thumbnailLink,webViewLink,iconLink) "
    pageSize := 200 }

/-- The handler of `GET /api/images` (lines 52-78); `queryFolderId` is
`req.query.folderId`.  The template literal of line 60 sits inside the `try`,
so a string conversion that throws is answered from the `catch`. -/
def imagesHandler (client : Option DriveClient) (DRIVE_FOLDER_ID : Option String)
    (queryFolderId : Option Param) : List Event :=
  match client with
  | none => [.status 500, .json (.obj [("error", .str "Drive client not configured on server.")])]
  | some c =>
    match resolveFolder queryFolderId DRIVE_FOLDER_ID with
    | none =>
      [.status 400, .json (.obj [("error", .str "folderId is required (or set DRIVE_FOLDER_ID in .env)")])]
    | some folderId =>
      if !folderId.truthy then
        [.status 400, .json (.obj [("error", .str "folderId is required (or set DRIVE_FOLDER_ID in .env)")])]
      else
        match folderId.render with
        | .error message =>
          [.consoleError "Drive list error", .status 500,
           .json (.obj [("error", .str "failed to list files"), ("details", .str message)])]
        | .ok rendered =>
          match c.filesList (listRequest rendered) with
          | .ok files =>
            [.listCall (listRequest rendered), .json (.arr ((listingFiles files).map Descriptor.toJson))]
          | .error err =>
            [.listCall (listRequest rendered), .consoleError "Drive list error", .status 500,
             .json (.obj [("error", .str "failed to list files"), ("details", .str err.message)])]

/-! ## Streaming proxy: `GET /api/image/:id` -/

/-- The handler of `GET /api/image/:id` (lines 81-99); `fileId` is
`req.params.id`.  `res.setHeader` (line 88) sits inside the `try`: when it
rejects the value nothing is set, the stream is not fetched and the `catch`
answers.  The stream is taken to deliver its bytes: the `error` listener
attached after `pipe` (lines 91-94) is not part of the model. -/
def imageHandler (client : Option DriveClient) (fileId : String) : List Event :=
  match client with
  | none => [.status 500, .send "Drive client not configured"]
  | some c =>
    match c.filesGet fileId "mimeType,name" with
    | .error err =>
      [.getCall fileId "mimeType,name", .consoleError "Error proxying file", .status 500,
       .json (.obj [("error", .str "failed to fetch file"), ("details", .str err.message)])]
    | .ok fileMeta =>
      let mime := jsOrLit fileMeta.mimeType "application/octet-stream"
      if !validHeaderValue mime then
        [.getCall fileId "mimeType,name", .consoleError "Error proxying file", .status 500,
         .json (.obj [("error", .str "failed to fetch file"),
                      ("details", .str (invalidHeaderMessage "Content-Type"))])]
      else
        match c.filesGetMedia fileId with
        | .error err =>
          [.getCall fileId "mimeType,name", .setHeader "Content-Type" mime, .mediaCall fileId,
           .consoleError "Error proxying file", .status 500,
           .json (.obj [("error", .str "failed to fetch file"), ("details", .str err.message)])]
        | .ok bytes =>
          [.getCall fileId "mimeType,name", .setHeader "Content-Type" mime, .mediaCall fileId,
           .pipe bytes]

/-! ## Upload: `POST /api/upload` -/

/-- The object `req.file` that multer's `upload.single('image')` leaves on the
request after it has written the upload to `path`. -/
structure MulterFile where
  path : String
  originalname : String
  filename : String
  mimetype : String

/-- The data `r.data` of a create call as serialised by `res.json`. -/
def CreatedFile.toJson (d : CreatedFile) : Json :=
  .obj [("id", .str d.id), ("name", .str d.name)]

/-- The argument of `files.create` at lines 110-114. -/
def createRequest (file : MulterFile) (folderId : Param) : CreateRequest :=
  { name := jsOrLit (some file.originalname) file.filename
    parents := [folderId]
    mimeType := file.mimetype
    bodyPath := file.path
    fields := "id,name" }

/-- The callback of `POST /api/upload` (lines 104-122); `file` is `req.file`,
`bodyFolderId` is `req.body.folderId`. -/
def uploadHandler (client : Option DriveClient) (DRIVE_FOLDER_ID : Option String)
    (file : Option MulterFile) (bodyFolderId : Option Param) : List Event :=
  match client with
  | none => [.status 500, .json (.obj [("error", .str "Drive client not configured")])]
  | some c =>
    match file with
    | none =>
      [.status 400, .json (.obj [("error", .str "image file required (multipart/form-data field `image`)")])]
    | some f =>
      match resolveFolder bodyFolderId DRIVE_FOLDER_ID with
      | none => [.status 400, .json (.obj [("error", .str "folderId required (or set DRIVE_FOLDER_ID)")])]
      | some folderId =>
        if !folderId.truthy then
          [.status 400, .json (.obj [("error", .str "folderId required (or set DRIVE_FOLDER_ID)")])]
        else
          match c.filesCreate (createRequest f folderId) with
          | .ok data =>
            [.createReadStream f.path, .createCall (createRequest f folderId), .unlink f.path,
             .json (.obj [("ok", .bool true), ("file", data.toJson)])]
          | .error err =>
            [.createReadStream f.path, .createCall (createRequest f folderId),
             .consoleError "Upload error", .status 500,
             .json (.obj [("error", .str "upload failed"), ("details", .str err.message)])]

/-- What the middleware `upload.single('image')` of line 104 did with the
request: it gave an error to `next` (the callback does not run), or it passed
the request on with `req.file` and `req.body.folderId` as shown. -/
inductive MiddlewareResult where
  | failed (message : String)
  | passed (file : Option MulterFile) (bodyFolderId : Option Param)

/-- The route `POST /api/upload` (line 104): the middleware, then the callback.
An error of the middleware carries no status and the application registers no
error handler, so Express's default one answers 500 with an HTML page. -/
def uploadRoute (client : Option DriveClient) (DRIVE_FOLDER_ID : Option String) :
    MiddlewareResult → List Event
  | .failed message => [.status 500, .errorPage message]
  | .passed file bodyFolderId => uploadHandler client DRIVE_FOLDER_ID file bodyFolderId

/-- A file part of a multipart body: the field it was sent under, and the file
object multer makes of it when it accepts the part. -/
structure FilePart where
  fieldname : String
  stored : MulterFile

/-- The middleware `upload.single(fieldName)` on a multipart body that is read
without fault, given its file parts in order and the `folderId` its text parts
leave in `req.body`: one file is accepted, under `fieldName` only; any other
file part is refused with multer's `Unexpected field` error. -/
def uploadSingle (fieldName : String) (files : List FilePart) (bodyFolderId : Option Param) :
    MiddlewareResult :=
  match files with
  | [] => .passed none bodyFolderId
  | [p] =>
    if p.fieldname == fieldName then .passed (some p.stored) bodyFolderId
    else .failed "Unexpected field"
  | _ :: _ :: _ => .failed "Unexpected field"

/-- The temporary files left on disk after a handler ran: those present
before, minus every path passed to `fs.unlink` (taken to succeed at once). -/
def tmpFilesAfter (before : List String) (trace : List Event) : List String :=
  before.filter (fun p => !(trace.any (fun e => match e with | .unlink q => q == p | _ => false)))

/-! ## Health and routing -/

/-- The handler of `GET /api/health` (line 49). -/
def healthHandler (client : Option DriveClient) : List Event :=
  [.json (.obj [("ok", .bool true), ("driveConfigured", .bool client.isSome)])]

/-- The guard of line 102 around the registration of the upload route. -/
def uploadEnabled (env : Env) : Bool :=
  env.ENABLE_UPLOAD == some "true" || env.ENABLE_UPLOAD == some "1"

/-- A request for one of the four routes, with the inputs its handler reads;
for the upload route, what its middleware made of the request. -/
inductive Request where
  | getHealth
  | getImages (folderId : Option Param)
  | getImage (id : String)
  | postUpload (outcome : MiddlewareResult)

/-- The application: the handler registered for the request, run on it; `none`
when no route of this file matches (the upload route with the feature off). -/
def app (env : Env) (client : Option DriveClient) : Request → Option (List Event)
  | .getHealth => some (healthHandler client)
  | .getImages folderId => some (imagesHandler client env.DRIVE_FOLDER_ID folderId)
  | .getImage id => some (imageHandler client id)
  | .postUpload outcome =>
    if uploadEnabled env then some (uploadRoute client env.DRIVE_FOLDER_ID outcome) else none

/-! ## Derived observations and sample data -/

/-- The provider calls of a trace, in order. -/
def providerCalls (trace : List Event) : List Event :=
  trace.filter Event.isProviderCall

/-- Whether an action sets the `Content-Type` header. -/
def Event.isContentType : Event → Bool
  | .setHeader name _ => name == "Content-Type"
  | _ => false

/-- Whether an action opens the content stream (`files.get` with `alt:'media'`). -/
def Event.isMediaCall : Event → Bool
  | .mediaCall _ => true
  | _ => false

/-- Whether an action writes body bytes to the response. -/
def Event.isBody : Event → Bool
  | .json _ => true
  | .send _ => true
  | .pipe _ => true
  | .errorPage _ => true
  | _ => false

/-- A PNG record that carries a provider thumbnail link. -/
def pngRecord : FileRecord :=
  { id := "f1", name := "cat.png", mimeType := "image/png"
    thumbnailLink := some "https://lh3.googleusercontent.com/drive-storage/f1=s220"
    webViewLink := none, iconLink := none }

/-- A JPEG record without a thumbnail link. -/
def jpegRecord : FileRecord :=
  { id := "f2", name := "dog.jpg", mimeType := "image/jpeg"
    thumbnailLink := none, webViewLink := none, iconLink := none }

/-- A client whose every call succeeds. -/
def sampleClient : DriveClient :=
  { filesList := fun _ => .ok (some [pngRecord, jpegRecord])
    filesGet := fun _ _ => .ok { mimeType := some "image/png", name := some "cat.png" }
    filesGetMedia := fun _ => .ok [137, 80, 78, 71]
    filesCreate := fun req => .ok { id := "new1", name := req.name } }

/-- A client whose every call throws an error with message `m`. -/
def failingClient (m : String) : DriveClient :=
  { filesList := fun _ => .error { message := m }
    filesGet := fun _ _ => .error { message := m }
    filesGetMedia := fun _ => .error { message := m }
    filesCreate := fun _ => .error { message := m } }

/-- A client whose metadata fetch succeeds and whose stream fetch throws. -/
def streamFailingClient (m : String) : DriveClient :=
  { sampleClient with filesGetMedia := fun _ => .error { message := m } }

/-- A client whose metadata carries the given `mimeType` member. -/
def metaClient (mimeType : Option String) : DriveClient :=
  { sampleClient with filesGet := fun _ _ => .ok { mimeType := mimeType, name := some "blob" } }

/-- An upload as multer leaves it on the request. -/
def sampleUpload : MulterFile :=
  { path := "server/tmp/3f2a9c", originalname := "cat.png", filename := "3f2a9c"
    mimetype := "image/png" }

/-- An environment with no variable set. -/
def emptyEnv : Env :=
  { PORT := none, DRIVE_FOLDER_ID := none, SERVICE_ACCOUNT_JSON := none
    GOOGLE_APPLICATION_CREDENTIALS := none, ENABLE_UPLOAD := none }

/-- A runtime whose `JSON.parse` and `require` always throw. -/
def throwingRuntime : Runtime :=
  { jsonParse := fun _ => .error "Unexpected token", requireFile := fun _ => .error "Cannot find module" }

/-! ## Shared lemmas: folder resolution and the trace of each path -/

theorem resolveFolder_supplied (p : Param) (dflt : Option String) (hp : p.truthy = true) :
    resolveFolder (some p) dflt = some p := by
  simp [resolveFolder, hp]

theorem resolveFolder_default (supplied : Option Param) (dflt : Option String)
    (hs : supplied = none ∨ supplied = some (.str "")) :
    resolveFolder supplied dflt = dflt.map Param.str := by
  rcases hs with hs | hs <;> subst hs <;> simp [resolveFolder, Param.truthy]

theorem resolveFolder_default_some (supplied : Option Param) (dflt : Option String) (id : String)
    (hs : supplied = none ∨ supplied = some (.str "")) (hd : dflt = some id) :
    resolveFolder supplied dflt = some (.str id) := by
  rw [resolveFolder_default supplied dflt hs, hd]
  rfl

theorem Param.falsy_is_empty (p : Param) (hp : p.truthy = false) : p = .str "" := by
  cases p with
  | str s =>
    have hs : s = "" := by simpa [Param.truthy] using hp
    rw [hs]
  | arr items => simp [Param.truthy] at hp
  | obj fields => simp [Param.truthy] at hp

theorem imagesHandler_called (c : DriveClient) (dflt : Option String) (qf : Option Param)
    (folder : Param) (rendered : String)
    (hfolder : resolveFolder qf dflt = some folder) (htruthy : folder.truthy = true)
    (hrender : folder.render = .ok rendered) :
    imagesHandler (some c) dflt qf =
      match c.filesList (listRequest rendered) with
      | .ok files =>
        [.listCall (listRequest rendered), .json (.arr ((listingFiles files).map Descriptor.toJson))]
      | .error err =>
        [.listCall (listRequest rendered), .consoleError "Drive list error", .status 500,
         .json (.obj [("error", .str "failed to list files"), ("details", .str err.message)])] := by
  simp [imagesHandler, hfolder, htruthy, hrender]

theorem imagesHandler_render_throws (c : DriveClient) (dflt : Option String) (qf : Option Param)
    (folder : Param) (message : String)
    (hfolder : resolveFolder qf dflt = some folder) (htruthy : folder.truthy = true)
    (hrender : folder.render = .error message) :
    imagesHandler (some c) dflt qf =
      [.consoleError "Drive list error", .status 500,
       .json (.obj [("error", .str "failed to list files"), ("details", .str message)])] := by
  simp [imagesHandler, hfolder, htruthy, hrender]

theorem imagesHandler_no_folder (c : DriveClient) (dflt : Option String) (qf : Option Param)
    (hq : qf = none ∨ qf = some (.str "")) (hd : truthyStr dflt = false) :
    imagesHandler (some c) dflt qf =
      [.status 400, .json (.obj [("error", .str "folderId is required (or set DRIVE_FOLDER_ID in .env)")])] := by
  unfold imagesHandler
  rw [resolveFolder_default qf dflt hq]
  cases dflt with
  | none => simp
  | some d =>
    have hd2 : d = "" := by simpa [truthyStr] using hd
    simp [hd2, Param.truthy]

theorem uploadHandler_called (c : DriveClient) (dflt : Option String) (bf : Option Param)
    (f : MulterFile) (folder : Param)
    (hfolder : resolveFolder bf dflt = some folder) (htruthy : folder.truthy = true) :
    uploadHandler (some c) dflt (some f) bf =
      match c.filesCreate (createRequest f folder) with
      | .ok data =>
        [.createReadStream f.path, .createCall (createRequest f folder), .unlink f.path,
         .json (.obj [("ok", .bool true), ("file", data.toJson)])]
      | .error err =>
        [.createReadStream f.path, .createCall (createRequest f folder),
         .consoleError "Upload error", .status 500,
         .json (.obj [("error", .str "upload failed"), ("details", .str err.message)])] := by
  simp [uploadHandler, hfolder, htruthy]

theorem uploadHandler_no_folder (c : DriveClient) (dflt : Option String) (bf : Option Param)
    (f : MulterFile) (hq : bf = none ∨ bf = some (.str "")) (hd : truthyStr dflt = false) :
    uploadHandler (some c) dflt (some f) bf =
      [.status 400, .json (.obj [("error", .str "folderId required (or set DRIVE_FOLDER_ID)")])] := by
  unfold uploadHandler
  rw [resolveFolder_default bf dflt hq]
  cases dflt with
  | none => simp
  | some d =>
    have hd2 : d = "" := by simpa [truthyStr] using hd
    simp [hd2, Param.truthy]

theorem imageHandler_streams (c : DriveClient) (fileId : String) (fileMeta : FileMeta)
    (hmeta : c.filesGet fileId "mimeType,name" = .ok fileMeta)
    (hvalid : validHeaderValue (jsOrLit fileMeta.mimeType "application/octet-stream") = true) :
    imageHandler (some c) fileId =
      match c.filesGetMedia fileId with
      | .error err =>
        [.getCall fileId "mimeType,name",
         .setHeader "Content-Type" (jsOrLit fileMeta.mimeType "application/octet-stream"),
         .mediaCall fileId, .consoleError "Error proxying file", .status 500,
         .json (.obj [("error", .str "failed to fetch file"), ("details", .str err.message)])]
      | .ok bytes =>
        [.getCall fileId "mimeType,name",
         .setHeader "Content-Type" (jsOrLit fileMeta.mimeType "application/octet-stream"),
         .mediaCall fileId, .pipe bytes] := by
  simp [imageHandler, hmeta, hvalid]

theorem imageHandler_header_rejected (c : DriveClient) (fileId : String) (fileMeta : FileMeta)
    (hmeta : c.filesGet fileId "mimeType,name" = .ok fileMeta)
    (hvalid : validHeaderValue (jsOrLit fileMeta.mimeType "application/octet-stream") = false) :
    imageHandler (some c) fileId =
      [.getCall fileId "mimeType,name", .consoleError "Error proxying file", .status 500,
       .json (.obj [("error", .str "failed to fetch file"),
                    ("details", .str (invalidHeaderMessage "Content-Type"))])] := by
  simp [imageHandler, hmeta, hvalid]

theorem jsOrLit_reported (a : Option String) (d m : String) (ha : a = some m) (hm : m ≠ "") :
    jsOrLit a d = m := by
  simp [jsOrLit, ha, hm]

theorem jsOrLit_fallback (a : Option String) (d : String) (ha : a = none ∨ a = some "") :
    jsOrLit a d = d := by
  rcases ha with ha | ha <;> simp [jsOrLit, ha]

/-! ## Descriptor links (listing) -/

/-- C3 (counterexample): for a record that carries a thumbnail link, the
descriptor's `thumb` is that provider-hosted link and differs from
`/api/image/` followed by the record's id. -/
theorem thumb_is_provider_link_counterexample :
    (descriptor pngRecord).thumb = "https://lh3.googleusercontent.com/drive-storage/f1=s220" ∧
    (descriptor pngRecord).thumb ≠ "/api/image/" ++ pngRecord.id ∧
    jsonBodyOf (imagesHandler (some sampleClient) none (some (.str "F1"))) =
      some (.arr [
        .obj [("id", .str "f1"), ("name", .str "cat.png"), ("mimeType", .str "image/png"),
              ("url", .str "/api/image/f1"),
              ("thumb", .str "https://lh3.googleusercontent.com/drive-storage/f1=s220")],
        .obj [("id", .str "f2"), ("name", .str "dog.jpg"), ("mimeType", .str "image/jpeg"),
              ("url", .str "/api/image/f2"), ("thumb", .str "/api/image/f2")]]) := by
  refine ⟨rfl, by decide, rfl⟩

/-- C3 (amended): for every file record, the descriptor's `url` is
`/api/image/` followed by the record's id; `thumb` equals that same local path
when the record has no thumbnail link or an empty one, and is the provider's
thumbnail link when the record has a non-empty one. -/
theorem descriptor_links (f : FileRecord) :
    (descriptor f).url = "/api/image/" ++ f.id ∧
    ((f.thumbnailLink = none ∨ f.thumbnailLink = some "") →
      (descriptor f).thumb = "/api/image/" ++ f.id) ∧
    (∀ link : String, f.thumbnailLink = some link → link ≠ "" → (descriptor f).thumb = link) := by
  refine ⟨rfl, ?_, ?_⟩
  · intro h
    rcases h with h | h <;> simp [descriptor, jsOrLit, h]
  · intro link h hne
    simp [descriptor, jsOrLit, h, hne]

/-- Witness for `descriptor_links`: a record with a thumbnail link and one without. -/
theorem descriptor_links_witness :
    (descriptor pngRecord).thumb = "https://lh3.googleusercontent.com/drive-storage/f1=s220" ∧
    (descriptor jpegRecord).thumb = "/api/image/" ++ jpegRecord.id :=
  ⟨(descriptor_links pngRecord).2.2 _ rfl (by decide),
   (descriptor_links jpegRecord).2.1 (Or.inl rfl)⟩

/-- C4: when the provider's listing call succeeds, the listing endpoint answers
with status 200 and a JSON array of the same length as the provider's file
list whose item at each position is the object with exactly the members `id`,
`name` and `mimeType` copied from the record at that position, `url` equal to
`/api/image/` followed by the id, and `thumb` equal to the record's thumbnail
link when that is present and non-empty and to the same local path as `url`
otherwise.  A missing `files` member or an empty list gives the empty array. -/
theorem listing_success_maps_records (c : DriveClient) (dflt : Option String)
    (qf : Option Param) (folder : Param) (folderId : String) (files : Option (List FileRecord))
    (hfolder : resolveFolder qf dflt = some folder) (htruthy : folder.truthy = true)
    (hrender : folder.render = .ok folderId)
    (hok : c.filesList (listRequest folderId) = .ok files) :
    statusOf (imagesHandler (some c) dflt qf) = 200 ∧
    (∃ items : List Json,
      jsonBodyOf (imagesHandler (some c) dflt qf) = some (.arr items) ∧
      items.length = (files.getD []).length ∧
      (∀ (i : Nat) (f : FileRecord), (files.getD [])[i]? = some f →
        ∃ thumb : String,
          items[i]? = some (.obj [("id", .str f.id), ("name", .str f.name),
            ("mimeType", .str f.mimeType), ("url", .str ("/api/image/" ++ f.id)),
            ("thumb", .str thumb)]) ∧
          (∀ link : String, f.thumbnailLink = some link → link ≠ "" → thumb = link) ∧
          ((f.thumbnailLink = none ∨ f.thumbnailLink = some "") →
            thumb = "/api/image/" ++ f.id))) ∧
    ((files = none ∨ files = some []) →
      jsonBodyOf (imagesHandler (some c) dflt qf) = some (.arr [])) := by
  have htrace := imagesHandler_called c dflt qf folder folderId hfolder htruthy hrender
  rw [hok] at htrace
  simp only at htrace
  rw [htrace]
  refine ⟨rfl, ⟨(listingFiles files).map Descriptor.toJson, rfl, ?_, ?_⟩, ?_⟩
  · simp [listingFiles]
  · intro i f hf
    refine ⟨(descriptor f).thumb, ?_, (descriptor_links f).2.2, (descriptor_links f).2.1⟩
    simp [listingFiles, hf, Descriptor.toJson, descriptor]
  · intro h
    rcases h with h | h <;> subst h <;> rfl

/-- Witness for `listing_success_maps_records`: a provider answering with two records. -/
theorem listing_success_maps_records_witness :
    statusOf (imagesHandler (some sampleClient) (some "F0") (some (.str "F1"))) = 200 ∧
    ∃ items : List Json,
      jsonBodyOf (imagesHandler (some sampleClient) (some "F0") (some (.str "F1"))) =
        some (.arr items) ∧
      items.length = 2 :=
  ⟨(listing_success_maps_records sampleClient (some "F0") (some (.str "F1")) (.str "F1") "F1"
      (some [pngRecord, jpegRecord]) rfl rfl rfl rfl).1,
   ((listing_success_maps_records sampleClient (some "F0") (some (.str "F1")) (.str "F1") "F1"
      (some [pngRecord, jpegRecord]) rfl rfl rfl rfl).2.1).elim
      (fun items h => ⟨items, h.1, h.2.1⟩)⟩

/-! ## Order of the listing checks -/

/-- C7 (counterexample): with a configured client and no default folder, the
query `?folderId[]=` (an array holding one empty string) is truthy, so the
handler does not answer 400: it calls the provider once, with the query text
for the empty identifier, and answers 200; the same array also takes
precedence over a configured default. -/
theorem array_folder_reaches_provider_counterexample :
    Param.truthy (.arr [.str ""]) = true ∧
    (Param.arr [.str ""]).render = .ok "" ∧
    statusOf (imagesHandler (some sampleClient) none (some (.arr [.str ""]))) = 200 ∧
    providerCalls (imagesHandler (some sampleClient) none (some (.arr [.str ""]))) =
      [.listCall (listRequest "")] ∧
    (listRequest "").q = "'' in parents and mimeType contains 'image/' and trashed = false" ∧
    providerCalls (imagesHandler (some sampleClient) (some "F0") (some (.arr [.str ""]))) =
      [.listCall (listRequest "")] := by
  refine ⟨rfl, rfl, rfl, rfl, by decide, rfl⟩

/-- C7 (amended): the listing endpoint applies its checks in order.  Without a
provider client the response is 500 for every folder input and the provider is
not called.  With a client, the folder is `req.query.folderId` when that is
truthy and `DRIVE_FOLDER_ID` otherwise, the only falsy parameter being the
empty string.  When the parameter is absent or empty and the default is absent
or empty, the response is 400 and the provider is not called.  When the
parameter is a non-empty string, or is absent or empty with a non-empty
default, the only provider call is the listing call for that identifier.  A
parameter delivered as an array or object counts as supplied whatever it
holds: the only provider call is the listing call for its string conversion,
and when that conversion throws the response is 500 with the thrown message
and the provider is not called. -/
theorem listing_checks_in_order (dflt : Option String) (qf : Option Param) :
    (statusOf (imagesHandler none dflt qf) = 500 ∧
      providerCalls (imagesHandler none dflt qf) = []) ∧
    (∀ p : Param, p.truthy = false → p = .str "") ∧
    (∀ c : DriveClient,
      ((qf = none ∨ qf = some (.str "")) → truthyStr dflt = false →
        statusOf (imagesHandler (some c) dflt qf) = 400 ∧
        providerCalls (imagesHandler (some c) dflt qf) = []) ∧
      (∀ id : String, qf = some (.str id) → id ≠ "" →
        providerCalls (imagesHandler (some c) dflt qf) = [.listCall (listRequest id)] ∧
        (listRequest id).q =
          "'" ++ id ++ "' in parents and mimeType contains 'image/' and trashed = false") ∧
      (∀ id : String, (qf = none ∨ qf = some (.str "")) → dflt = some id → id ≠ "" →
        providerCalls (imagesHandler (some c) dflt qf) = [.listCall (listRequest id)] ∧
        (listRequest id).q =
          "'" ++ id ++ "' in parents and mimeType contains 'image/' and trashed = false") ∧
      (∀ (p : Param) (rendered : String), qf = some p → p.truthy = true →
        p.render = .ok rendered →
        providerCalls (imagesHandler (some c) dflt qf) = [.listCall (listRequest rendered)]) ∧
      (∀ (p : Param) (message : String), qf = some p → p.truthy = true →
        p.render = .error message →
        statusOf (imagesHandler (some c) dflt qf) = 500 ∧
        jsonBodyOf (imagesHandler (some c) dflt qf) =
          some (.obj [("error", .str "failed to list files"), ("details", .str message)]) ∧
        providerCalls (imagesHandler (some c) dflt qf) = [])) := by
  refine ⟨⟨rfl, rfl⟩, Param.falsy_is_empty, fun c => ⟨?_, ?_, ?_, ?_, ?_⟩⟩
  · intro hq hd
    rw [imagesHandler_no_folder c dflt qf hq hd]
    exact ⟨rfl, rfl⟩
  · intro id hq hne
    subst hq
    have ht : (Param.str id).truthy = true := by simp [Param.truthy, hne]
    rw [imagesHandler_called c dflt (some (.str id)) (.str id) id
      (resolveFolder_supplied _ dflt ht) ht rfl]
    refine ⟨?_, rfl⟩
    cases c.filesList (listRequest id) <;> rfl
  · intro id hq hd hne
    have ht : (Param.str id).truthy = true := by simp [Param.truthy, hne]
    rw [imagesHandler_called c dflt qf (.str id) id
      (resolveFolder_default_some qf dflt id hq hd) ht rfl]
    refine ⟨?_, rfl⟩
    cases c.filesList (listRequest id) <;> rfl
  · intro p rendered hq ht hr
    subst hq
    rw [imagesHandler_called c dflt (some p) p rendered (resolveFolder_supplied p dflt ht) ht hr]
    cases c.filesList (listRequest rendered) <;> rfl
  · intro p message hq ht hr
    subst hq
    rw [imagesHandler_render_throws c dflt (some p) p message
      (resolveFolder_supplied p dflt ht) ht hr]
    exact ⟨rfl, rfl, rfl⟩

/-- Witness for `listing_checks_in_order`: no folder at all, a query string, an
empty query string with a configured default, an array of two strings, and an
object whose string conversion throws. -/
theorem listing_checks_in_order_witness :
    statusOf (imagesHandler (some sampleClient) (some "") none) = 400 ∧
    providerCalls (imagesHandler (some sampleClient) (some "F0") (some (.str "F1"))) =
      [.listCall (listRequest "F1")] ∧
    providerCalls (imagesHandler (some sampleClient) (some "F0") (some (.str ""))) =
      [.listCall (listRequest "F0")] ∧
    providerCalls (imagesHandler (some sampleClient) (some "F0")
        (some (.arr [.str "F1", .str "F2"]))) = [.listCall (listRequest "F1,F2")] ∧
    statusOf (imagesHandler (some sampleClient) (some "F0")
        (some (.obj [("toString", .str "x")]))) = 500 :=
  ⟨(((listing_checks_in_order (some "") none).2.2 sampleClient).1 (Or.inl rfl) rfl).1,
   (((listing_checks_in_order (some "F0") (some (.str "F1"))).2.2 sampleClient).2.1
      "F1" rfl (by decide)).1,
   (((listing_checks_in_order (some "F0") (some (.str ""))).2.2 sampleClient).2.2.1
      "F0" (Or.inr rfl) rfl (by decide)).1,
   ((listing_checks_in_order (some "F0") (some (.arr [.str "F1", .str "F2"]))).2.2
      sampleClient).2.2.2.1 (.arr [.str "F1", .str "F2"]) "F1,F2" rfl rfl rfl,
   (((listing_checks_in_order (some "F0") (some (.obj [("toString", .str "x")]))).2.2
      sampleClient).2.2.2.2 (.obj [("toString", .str "x")])
      "Cannot convert object to primitive value" rfl rfl rfl).1⟩

/-! ## Provider failures -/

/-- C8: when a provider call is made and throws an error with message `m`, the
endpoint answers with status 500 and a JSON object whose `details` member is
`m` and whose `error` member is `failed to list files` (listing), `failed to
fetch file` (streaming, for a failed metadata fetch and for a failed stream
fetch alike) or `upload failed` (upload); no body is streamed and no success
response is produced.  The listing call is made once the folder is resolved
and converted to a string, the stream fetch once `res.setHeader` has accepted
the content type, the create call once a file and a folder are present. -/
theorem provider_failure_is_reported (c : DriveClient) (m : String) :
    (∀ (dflt : Option String) (qf : Option Param) (folder : Param) (folderId : String),
      resolveFolder qf dflt = some folder → folder.truthy = true →
      folder.render = .ok folderId →
      c.filesList (listRequest folderId) = .error { message := m } →
      providerCalls (imagesHandler (some c) dflt qf) = [.listCall (listRequest folderId)] ∧
      statusOf (imagesHandler (some c) dflt qf) = 500 ∧
      jsonBodyOf (imagesHandler (some c) dflt qf) =
        some (.obj [("error", .str "failed to list files"), ("details", .str m)])) ∧
    (∀ fileId : String,
      c.filesGet fileId "mimeType,name" = .error { message := m } →
      statusOf (imageHandler (some c) fileId) = 500 ∧
      jsonBodyOf (imageHandler (some c) fileId) =
        some (.obj [("error", .str "failed to fetch file"), ("details", .str m)]) ∧
      streamBodyOf (imageHandler (some c) fileId) = none) ∧
    (∀ (fileId : String) (fileMeta : FileMeta),
      c.filesGet fileId "mimeType,name" = .ok fileMeta →
      validHeaderValue (jsOrLit fileMeta.mimeType "application/octet-stream") = true →
      c.filesGetMedia fileId = .error { message := m } →
      providerCalls (imageHandler (some c) fileId) =
        [.getCall fileId "mimeType,name", .mediaCall fileId] ∧
      statusOf (imageHandler (some c) fileId) = 500 ∧
      jsonBodyOf (imageHandler (some c) fileId) =
        some (.obj [("error", .str "failed to fetch file"), ("details", .str m)]) ∧
      streamBodyOf (imageHandler (some c) fileId) = none) ∧
    (∀ (dflt : Option String) (bf : Option Param) (f : MulterFile) (folder : Param),
      resolveFolder bf dflt = some folder → folder.truthy = true →
      c.filesCreate (createRequest f folder) = .error { message := m } →
      providerCalls (uploadHandler (some c) dflt (some f) bf) =
        [.createCall (createRequest f folder)] ∧
      statusOf (uploadHandler (some c) dflt (some f) bf) = 500 ∧
      jsonBodyOf (uploadHandler (some c) dflt (some f) bf) =
        some (.obj [("error", .str "upload failed"), ("details", .str m)])) := by
  refine ⟨?_, ?_, ?_, ?_⟩
  · intro dflt qf folder folderId hfolder htruthy hrender herr
    rw [imagesHandler_called c dflt qf folder folderId hfolder htruthy hrender, herr]
    exact ⟨rfl, rfl, rfl⟩
  · intro fileId herr
    simp only [imageHandler, herr]
    exact ⟨rfl, rfl, rfl⟩
  · intro fileId fileMeta hmeta hvalid herr
    rw [imageHandler_streams c fileId fileMeta hmeta hvalid, herr]
    exact ⟨rfl, rfl, rfl, rfl⟩
  · intro dflt bf f folder hfolder htruthy herr
    rw [uploadHandler_called c dflt bf f folder hfolder htruthy, herr]
    exact ⟨rfl, rfl, rfl⟩

/-- Witness for `provider_failure_is_reported`: each of the four calls failing
with the message `quota exceeded`. -/
theorem provider_failure_is_reported_witness :
    jsonBodyOf (imagesHandler (some (failingClient "quota exceeded")) none (some (.str "F1"))) =
      some (.obj [("error", .str "failed to list files"), ("details", .str "quota exceeded")]) ∧
    jsonBodyOf (imageHandler (some (failingClient "quota exceeded")) "f1") =
      some (.obj [("error", .str "failed to fetch file"), ("details", .str "quota exceeded")]) ∧
    jsonBodyOf (imageHandler (some (streamFailingClient "quota exceeded")) "f1") =
      some (.obj [("error", .str "failed to fetch file"), ("details", .str "quota exceeded")]) ∧
    jsonBodyOf (uploadHandler (some (failingClient "quota exceeded")) none (some sampleUpload)
        (some (.str "F1"))) =
      some (.obj [("error", .str "upload failed"), ("details", .str "quota exceeded")]) :=
  ⟨((provider_failure_is_reported (failingClient "quota exceeded") "quota exceeded").1
      none (some (.str "F1")) (.str "F1") "F1" rfl rfl rfl rfl).2.2,
   ((provider_failure_is_reported (failingClient "quota exceeded") "quota exceeded").2.1
      "f1" rfl).2.1,
   ((provider_failure_is_reported (streamFailingClient "quota exceeded") "quota exceeded").2.2.1
      "f1" { mimeType := some "image/png", name := some "cat.png" } rfl rfl rfl).2.2.1,
   ((provider_failure_is_reported (failingClient "quota exceeded") "quota exceeded").2.2.2
      none (some (.str "F1")) sampleUpload (.str "F1") rfl rfl rfl).2.2⟩

/-! ## Upload validation and success -/

/-- C9 (counterexample): with a configured client and a default folder, a
multipart body whose only file part is sent under the field `photo` carries no
file in the field `image`; `upload.single('image')` refuses it with `Unexpected
field`, the callback does not run, and the response is 500 with an HTML error
page and no JSON body, not 400. -/
theorem upload_other_field_counterexample :
    uploadSingle "image" [{ fieldname := "photo", stored := sampleUpload }] none =
      .failed "Unexpected field" ∧
    statusOf (uploadRoute (some sampleClient) (some "F0")
      (uploadSingle "image" [{ fieldname := "photo", stored := sampleUpload }] none)) = 500 ∧
    jsonBodyOf (uploadRoute (some sampleClient) (some "F0")
      (uploadSingle "image" [{ fieldname := "photo", stored := sampleUpload }] none)) = none ∧
    uploadRoute (some sampleClient) (some "F0")
      (uploadSingle "image" [{ fieldname := "photo", stored := sampleUpload }] none) =
      [.status 500, .errorPage "Unexpected field"] := by
  exact ⟨rfl, rfl, rfl, rfl⟩

/-- C9 (amended): with a configured provider client, a request that
`upload.single('image')` refuses never reaches the callback: the response is
500 with an HTML error page and no provider call; this is what happens to a
file part sent under another field name.  A request passed on without a file
(a body with no file part) is answered 400 with the error string `image file
required (multipart/form-data field image)` (the field name in backquotes) and
no provider call.  A request passed on with a file, when `req.body.folderId` is
absent or empty and `DRIVE_FOLDER_ID` is absent or empty, is answered 400 with
no provider call.  Otherwise the only provider call is the create call, whose
name is the upload's original name (its stored name when that is empty) and
whose only parent is the resolved folder, and when that call succeeds the
response is 200 with `ok` true and `file` holding the provider's id and name. -/
theorem upload_validation_and_success (c : DriveClient) (dflt : Option String)
    (bf : Option Param) :
    (∀ message : String,
      statusOf (uploadRoute (some c) dflt (.failed message)) = 500 ∧
      jsonBodyOf (uploadRoute (some c) dflt (.failed message)) = none ∧
      providerCalls (uploadRoute (some c) dflt (.failed message)) = []) ∧
    (∀ part : FilePart, part.fieldname ≠ "image" →
      uploadSingle "image" [part] bf = .failed "Unexpected field") ∧
    (∀ part : FilePart, part.fieldname = "image" →
      uploadSingle "image" [part] bf = .passed (some part.stored) bf) ∧
    uploadSingle "image" [] bf = .passed none bf ∧
    (∀ (file : Option MulterFile),
      uploadRoute (some c) dflt (.passed file bf) = uploadHandler (some c) dflt file bf) ∧
    (statusOf (uploadHandler (some c) dflt none bf) = 400 ∧
      jsonBodyOf (uploadHandler (some c) dflt none bf) =
        some (.obj [("error", .str "image file required (multipart/form-data field `image`)")]) ∧
      providerCalls (uploadHandler (some c) dflt none bf) = []) ∧
    (∀ f : MulterFile, (bf = none ∨ bf = some (.str "")) → truthyStr dflt = false →
      statusOf (uploadHandler (some c) dflt (some f) bf) = 400 ∧
      jsonBodyOf (uploadHandler (some c) dflt (some f) bf) =
        some (.obj [("error", .str "folderId required (or set DRIVE_FOLDER_ID)")]) ∧
      providerCalls (uploadHandler (some c) dflt (some f) bf) = []) ∧
    (∀ (f : MulterFile) (folder : Param), resolveFolder bf dflt = some folder →
      folder.truthy = true →
      providerCalls (uploadHandler (some c) dflt (some f) bf) =
        [.createCall (createRequest f folder)] ∧
      (createRequest f folder).parents = [folder] ∧
      (f.originalname ≠ "" → (createRequest f folder).name = f.originalname) ∧
      (f.originalname = "" → (createRequest f folder).name = f.filename) ∧
      (∀ data : CreatedFile, c.filesCreate (createRequest f folder) = .ok data →
        statusOf (uploadHandler (some c) dflt (some f) bf) = 200 ∧
        jsonBodyOf (uploadHandler (some c) dflt (some f) bf) =
          some (.obj [("ok", .bool true),
                      ("file", .obj [("id", .str data.id), ("name", .str data.name)])]))) ∧
    (∀ p : Param, bf = some p → p.truthy = true → resolveFolder bf dflt = some p) ∧
    (∀ id : String, (bf = none ∨ bf = some (.str "")) → dflt = some id →
      resolveFolder bf dflt = some (.str id)) := by
  refine ⟨fun _ => ⟨rfl, rfl, rfl⟩, ?_, ?_, rfl, fun _ => rfl, ⟨rfl, rfl, rfl⟩, ?_, ?_, ?_, ?_⟩
  · intro part hne
    simp [uploadSingle, hne]
  · intro part heq
    simp [uploadSingle, heq]
  · intro f hq hd
    rw [uploadHandler_no_folder c dflt bf f hq hd]
    exact ⟨rfl, rfl, rfl⟩
  · intro f folder hfolder htruthy
    rw [uploadHandler_called c dflt bf f folder hfolder htruthy]
    refine ⟨?_, rfl, ?_, ?_, ?_⟩
    · cases c.filesCreate (createRequest f folder) <;> rfl
    · intro h
      simp [createRequest, jsOrLit, h]
    · intro h
      simp [createRequest, jsOrLit, h]
    · intro data hok
      rw [hok]
      exact ⟨rfl, rfl⟩
  · intro p hp ht
    subst hp
    exact resolveFolder_supplied p dflt ht
  · intro id hq hd
    exact resolveFolder_default_some bf dflt id hq hd

/-- Witness for `upload_validation_and_success`: a file under another field, an
upload with no folder anywhere, and an upload into the folder named in the
request body. -/
theorem upload_validation_and_success_witness :
    uploadSingle "image" [{ fieldname := "photo", stored := sampleUpload }] none =
      .failed "Unexpected field" ∧
    uploadSingle "image" [{ fieldname := "image", stored := sampleUpload }] (some (.str "F1")) =
      .passed (some sampleUpload) (some (.str "F1")) ∧
    statusOf (uploadHandler (some sampleClient) none (some sampleUpload) none) = 400 ∧
    providerCalls (uploadHandler (some sampleClient) (some "F0") (some sampleUpload)
        (some (.str "F1"))) = [.createCall (createRequest sampleUpload (.str "F1"))] ∧
    (createRequest sampleUpload (.str "F1")).name = "cat.png" ∧
    jsonBodyOf (uploadHandler (some sampleClient) (some "F0") (some sampleUpload)
        (some (.str "F1"))) =
      some (.obj [("ok", .bool true),
                  ("file", .obj [("id", .str "new1"), ("name", .str "cat.png")])]) :=
  ⟨(upload_validation_and_success sampleClient none none).2.1
      { fieldname := "photo", stored := sampleUpload } (by decide),
   (upload_validation_and_success sampleClient none (some (.str "F1"))).2.2.1
      { fieldname := "image", stored := sampleUpload } rfl,
   ((upload_validation_and_success sampleClient none none).2.2.2.2.2.2.1
      sampleUpload (Or.inl rfl) rfl).1,
   ((upload_validation_and_success sampleClient (some "F0") (some (.str "F1"))).2.2.2.2.2.2.2.1
      sampleUpload (.str "F1") rfl rfl).1,
   ((upload_validation_and_success sampleClient (some "F0") (some (.str "F1"))).2.2.2.2.2.2.2.1
      sampleUpload (.str "F1") rfl rfl).2.2.1 (by decide),
   (((upload_validation_and_success sampleClient (some "F0") (some (.str "F1"))).2.2.2.2.2.2.2.1
      sampleUpload (.str "F1") rfl rfl).2.2.2.2 { id := "new1", name := "cat.png" } rfl).2⟩

/-! ## No credential configured -/

/-- C2: when start-up yields no credential (loading threw, or gave a falsy
value, so `driveClient` stays unassigned), the listing, streaming and upload
handlers each answer 500 without any provider call, whatever the request, and
health answers 200 with `ok` true and `driveConfigured` false; the same holds
of every route the application registers (the upload route is registered only
when `ENABLE_UPLOAD` is `true` or `1`).  In every configuration health answers
200 with `driveConfigured` equal to whether the client was initialised, which
is exactly when `key` is truthy; a throwing loader, in particular one that
finds neither variable set, leaves `key` null. -/
theorem unconfigured_endpoints_fail (env : Env) (rt : Runtime)
    (googleDrive : JwtOptions → DriveClient) :
    ((key env rt).truthy = false →
      driveClient env rt googleDrive = none ∧
      (∀ qf : Option Param,
        statusOf (imagesHandler (driveClient env rt googleDrive) env.DRIVE_FOLDER_ID qf) = 500 ∧
        providerCalls (imagesHandler (driveClient env rt googleDrive) env.DRIVE_FOLDER_ID qf) = []) ∧
      (∀ id : String,
        statusOf (imageHandler (driveClient env rt googleDrive) id) = 500 ∧
        providerCalls (imageHandler (driveClient env rt googleDrive) id) = []) ∧
      (∀ (file : Option MulterFile) (bf : Option Param),
        statusOf (uploadHandler (driveClient env rt googleDrive) env.DRIVE_FOLDER_ID file bf) = 500 ∧
        providerCalls
          (uploadHandler (driveClient env rt googleDrive) env.DRIVE_FOLDER_ID file bf) = []) ∧
      jsonBodyOf (healthHandler (driveClient env rt googleDrive)) =
        some (.obj [("ok", .bool true), ("driveConfigured", .bool false)]) ∧
      (∀ (req : Request) (t : List Event), app env (driveClient env rt googleDrive) req = some t →
        (req = .getHealth ∧ statusOf t = 200) ∨ (statusOf t = 500 ∧ providerCalls t = []))) ∧
    (statusOf (healthHandler (driveClient env rt googleDrive)) = 200 ∧
      jsonBodyOf (healthHandler (driveClient env rt googleDrive)) =
        some (.obj [("ok", .bool true),
                    ("driveConfigured", .bool (driveClient env rt googleDrive).isSome)])) ∧
    (driveClient env rt googleDrive).isSome = (key env rt).truthy ∧
    (∀ e : String, getServiceAccountCredentials env rt = .error e → key env rt = .null) ∧
    (truthyStr env.SERVICE_ACCOUNT_JSON = false →
      truthyStr env.GOOGLE_APPLICATION_CREDENTIALS = false → key env rt = .null) := by
  refine ⟨?_, ⟨rfl, rfl⟩, ?_, ?_, ?_⟩
  · intro hkey
    have hnone : driveClient env rt googleDrive = none := by simp [driveClient, hkey]
    rw [hnone]
    refine ⟨rfl, fun _ => ⟨rfl, rfl⟩, fun _ => ⟨rfl, rfl⟩, fun _ _ => ⟨rfl, rfl⟩, rfl, ?_⟩
    intro req t ht
    cases req with
    | getHealth =>
      simp only [app, Option.some.injEq] at ht
      subst ht
      exact Or.inl ⟨rfl, rfl⟩
    | getImages folderId =>
      simp only [app, Option.some.injEq] at ht
      subst ht
      exact Or.inr ⟨rfl, rfl⟩
    | getImage id =>
      simp only [app, Option.some.injEq] at ht
      subst ht
      exact Or.inr ⟨rfl, rfl⟩
    | postUpload outcome =>
      simp only [app] at ht
      split at ht
      · simp only [Option.some.injEq] at ht
        subst ht
        cases outcome <;> exact Or.inr ⟨rfl, rfl⟩
      · exact absurd ht (by simp)
  · simp only [driveClient]
    cases h : (key env rt).truthy <;> simp
  · intro e he
    simp [key, he]
  · intro h1 h2
    simp [key, getServiceAccountCredentials, h1, h2]

/-- Witness for `unconfigured_endpoints_fail`: an empty environment. -/
theorem unconfigured_endpoints_fail_witness :
    driveClient emptyEnv throwingRuntime (fun _ => sampleClient) = none ∧
    key emptyEnv throwingRuntime = .null ∧
    statusOf (imageHandler (driveClient emptyEnv throwingRuntime (fun _ => sampleClient)) "f1") = 500 :=
  ⟨((unconfigured_endpoints_fail emptyEnv throwingRuntime (fun _ => sampleClient)).1 rfl).1,
   (unconfigured_endpoints_fail emptyEnv throwingRuntime (fun _ => sampleClient)).2.2.2.2 rfl rfl,
   (((unconfigured_endpoints_fail emptyEnv throwingRuntime (fun _ => sampleClient)).1 rfl).2.2.1
      "f1").1⟩

/-! ## Content type of the streaming proxy -/

/-- C6 (counterexample): the metadata fetch and the stream fetch both succeed,
yet the `Content-Type` header is not the reported MIME type: for an empty
reported type (or none at all) it is `application/octet-stream`, and for a
reported type that ends in a line feed `res.setHeader` throws, no header is
set, the stream is not fetched and the response is 500. -/
theorem content_type_fallback_counterexample :
    (metaClient (some "")).filesGet "f1" "mimeType,name" =
      .ok { mimeType := some "", name := some "blob" } ∧
    (metaClient (some "")).filesGetMedia "f1" = .ok [137, 80, 78, 71] ∧
    headerOf (imageHandler (some (metaClient (some ""))) "f1") "Content-Type" =
      some "application/octet-stream" ∧
    headerOf (imageHandler (some (metaClient (some ""))) "f1") "Content-Type" ≠ some "" ∧
    (metaClient none).filesGet "f1" "mimeType,name" = .ok { mimeType := none, name := some "blob" } ∧
    headerOf (imageHandler (some (metaClient none)) "f1") "Content-Type" =
      some "application/octet-stream" ∧
    (metaClient (some "image/png\n")).filesGetMedia "f1" = .ok [137, 80, 78, 71] ∧
    headerOf (imageHandler (some (metaClient (some "image/png\n"))) "f1") "Content-Type" = none ∧
    providerCalls (imageHandler (some (metaClient (some "image/png\n"))) "f1") =
      [.getCall "f1" "mimeType,name"] ∧
    statusOf (imageHandler (some (metaClient (some "image/png\n"))) "f1") = 500 := by
  refine ⟨rfl, rfl, rfl, by decide, rfl, rfl, rfl, rfl, rfl, rfl⟩

/-- C6 (amended): when the metadata fetch and the stream fetch both succeed,
the content type is the MIME type the provider reported when that is present
and non-empty, and `application/octet-stream` otherwise.  When `res.setHeader`
accepts that value (it has only tab, printable ASCII and Latin-1 characters),
the handler performs, in this order, the metadata fetch, one `Content-Type`
assignment with that value, the stream fetch and the piping of the bytes, with
status 200: the header is set before the stream is opened and before any body
byte is written.  When `res.setHeader` rejects the value, no header is set, the
stream is not fetched, no byte is piped and the response is 500 with the error
`failed to fetch file`. -/
theorem content_type_before_stream (c : DriveClient) (fileId : String) (fileMeta : FileMeta)
    (bytes : List Nat)
    (hmeta : c.filesGet fileId "mimeType,name" = .ok fileMeta)
    (hmedia : c.filesGetMedia fileId = .ok bytes) :
    (∃ mime : String,
      (∀ m : String, fileMeta.mimeType = some m → m ≠ "" → mime = m) ∧
      ((fileMeta.mimeType = none ∨ fileMeta.mimeType = some "") →
        mime = "application/octet-stream" ∧ validHeaderValue mime = true) ∧
      (validHeaderValue mime = true →
        imageHandler (some c) fileId =
          [.getCall fileId "mimeType,name", .setHeader "Content-Type" mime, .mediaCall fileId,
           .pipe bytes] ∧
        headerOf (imageHandler (some c) fileId) "Content-Type" = some mime ∧
        ((imageHandler (some c) fileId).filter Event.isContentType).length = 1 ∧
        (imageHandler (some c) fileId).findIdx Event.isContentType <
          (imageHandler (some c) fileId).findIdx Event.isMediaCall ∧
        (imageHandler (some c) fileId).findIdx Event.isMediaCall <
          (imageHandler (some c) fileId).findIdx Event.isBody ∧
        (imageHandler (some c) fileId).findIdx Event.isBody <
          (imageHandler (some c) fileId).length ∧
        statusOf (imageHandler (some c) fileId) = 200 ∧
        streamBodyOf (imageHandler (some c) fileId) = some bytes) ∧
      (validHeaderValue mime = false →
        headerOf (imageHandler (some c) fileId) "Content-Type" = none ∧
        providerCalls (imageHandler (some c) fileId) = [.getCall fileId "mimeType,name"] ∧
        streamBodyOf (imageHandler (some c) fileId) = none ∧
        statusOf (imageHandler (some c) fileId) = 500 ∧
        jsonBodyOf (imageHandler (some c) fileId) =
          some (.obj [("error", .str "failed to fetch file"),
                      ("details", .str "Invalid character in header content [\"Content-Type\"]")]))) ∧
    (∀ m : String, fileMeta.mimeType = some m → m ≠ "" → validHeaderValue m = true →
      headerOf (imageHandler (some c) fileId) "Content-Type" = some m) ∧
    ((fileMeta.mimeType = none ∨ fileMeta.mimeType = some "") →
      headerOf (imageHandler (some c) fileId) "Content-Type" = some "application/octet-stream") := by
  have hstream : validHeaderValue (jsOrLit fileMeta.mimeType "application/octet-stream") = true →
      imageHandler (some c) fileId =
        [.getCall fileId "mimeType,name",
         .setHeader "Content-Type" (jsOrLit fileMeta.mimeType "application/octet-stream"),
         .mediaCall fileId, .pipe bytes] := by
    intro hvalid
    rw [imageHandler_streams c fileId fileMeta hmeta hvalid, hmedia]
  refine ⟨⟨jsOrLit fileMeta.mimeType "application/octet-stream", ?_, ?_, ?_, ?_⟩, ?_, ?_⟩
  · intro m hm hne
    exact jsOrLit_reported _ _ m hm hne
  · intro h
    rw [jsOrLit_fallback _ _ h]
    exact ⟨rfl, by decide⟩
  · intro hvalid
    rw [hstream hvalid]
    have hct : List.findIdx Event.isContentType
        [.getCall fileId "mimeType,name",
         .setHeader "Content-Type" (jsOrLit fileMeta.mimeType "application/octet-stream"),
         .mediaCall fileId, .pipe bytes] = 1 := rfl
    have hmc : List.findIdx Event.isMediaCall
        [.getCall fileId "mimeType,name",
         .setHeader "Content-Type" (jsOrLit fileMeta.mimeType "application/octet-stream"),
         .mediaCall fileId, .pipe bytes] = 2 := rfl
    have hbody : List.findIdx Event.isBody
        [.getCall fileId "mimeType,name",
         .setHeader "Content-Type" (jsOrLit fileMeta.mimeType "application/octet-stream"),
         .mediaCall fileId, .pipe bytes] = 3 := rfl
    rw [hct, hmc, hbody]
    exact ⟨rfl, rfl, rfl, by decide, by decide, by simp, rfl, rfl⟩
  · intro hinvalid
    rw [imageHandler_header_rejected c fileId fileMeta hmeta hinvalid]
    exact ⟨rfl, rfl, rfl, rfl, rfl⟩
  · intro m hm hne hvalid
    have hmime := jsOrLit_reported fileMeta.mimeType "application/octet-stream" m hm hne
    rw [hstream (by rw [hmime]; exact hvalid), hmime]
    rfl
  · intro h
    have hmime := jsOrLit_fallback fileMeta.mimeType "application/octet-stream" h
    rw [hstream (by rw [hmime]; decide), hmime]
    rfl

/-- Witness for `content_type_before_stream`: a PNG whose metadata and stream
are both served. -/
theorem content_type_before_stream_witness :
    headerOf (imageHandler (some sampleClient) "f1") "Content-Type" = some "image/png" :=
  (content_type_before_stream sampleClient "f1" { mimeType := some "image/png", name := some "cat.png" }
      [137, 80, 78, 71] rfl rfl).2.1 "image/png" rfl (by decide) (by decide)

/-! ## Temporary upload files -/

/-- C1 (the code at the failing inputs): with the upload stored at
`server/tmp/3f2a9c`, the file is still on disk after the handler answered when
the provider create call failed (500), when no provider client is configured
(500) and when no folder identifier is resolvable (400); only the success path
unlinks it. -/
theorem upload_temp_file_remains_on_failure :
    (statusOf (uploadHandler (some (failingClient "quota exceeded")) (some "F0")
        (some sampleUpload) none) = 500 ∧
      tmpFilesAfter ["server/tmp/3f2a9c"]
        (uploadHandler (some (failingClient "quota exceeded")) (some "F0") (some sampleUpload) none) =
        ["server/tmp/3f2a9c"]) ∧
    (statusOf (uploadHandler none (some "F0") (some sampleUpload) none) = 500 ∧
      tmpFilesAfter ["server/tmp/3f2a9c"]
        (uploadHandler none (some "F0") (some sampleUpload) none) = ["server/tmp/3f2a9c"]) ∧
    (statusOf (uploadHandler (some sampleClient) none (some sampleUpload) none) = 400 ∧
      tmpFilesAfter ["server/tmp/3f2a9c"]
        (uploadHandler (some sampleClient) none (some sampleUpload) none) = ["server/tmp/3f2a9c"]) ∧
    (statusOf (uploadHandler (some sampleClient) (some "F0") (some sampleUpload) none) = 200 ∧
      tmpFilesAfter ["server/tmp/3f2a9c"]
        (uploadHandler (some sampleClient) (some "F0") (some sampleUpload) none) = []) := by
  refine ⟨⟨rfl, ?_⟩, ⟨rfl, ?_⟩, ⟨rfl, ?_⟩, ⟨rfl, ?_⟩⟩ <;> decide

/-! ## Shape of error bodies -/

/-- C10 (the code at the failing input): without a provider client the
streaming endpoint answers 500 with the plain text `Drive client not
configured` sent through `res.send`; no JSON body is produced, whereas the
listing and upload endpoints answer the same condition with a JSON object
carrying an `error` member. -/
theorem unconfigured_stream_sends_text :
    statusOf (imageHandler none "abc") = 500 ∧
    jsonBodyOf (imageHandler none "abc") = none ∧
    textBodyOf (imageHandler none "abc") = some "Drive client not configured" ∧
    jsonBodyOf (imagesHandler none none none) =
      some (.obj [("error", .str "Drive client not configured on server.")]) ∧
    jsonBodyOf (uploadHandler none none none none) =
      some (.obj [("error", .str "Drive client not configured")]) := by
  exact ⟨rfl, rfl, rfl, rfl, rfl⟩

end Gallery
